import Mathlib

/-!
Shallow embedding of the Bloxy HID daemon core (directory `daemon/` of the
repository), covering:

* `daemon/ble_peripheral.py` — the GATT characteristic / descriptor state
  machine (`HIDCharacteristic.update_value`, `set_notifying`, `ReadValue`,
  `WriteValue`, `StartNotify`, `StopNotify`, and `HIDDescriptor.WriteValue`
  with its CCCD special case);
* `daemon/hid_reports.py` — the pure HID report builders
  (`build_keyboard_report_bytes`, `build_mouse_report_bytes`);
* `daemon/evdev_tracker.py` — the hot-plug tolerant device poller
  (`EvdevTracker.poll`, `_read_events`, `open`, `close`) and its key tables;
* `daemon/hid_daemon.py` — the periodic dispatch tick
  (`HIDDaemon._schedule_report_updates.update_reports`).

Python byte values are modelled as `Nat` with explicit `% 256` masking where
the source masks with `& 0xFF`; Python lists/bytes as `List Nat`; Python sets
of key names as `List String` with membership-checked insert/erase (the source
uses `set.add` / `set.discard`, which are exactly insert-if-absent /
remove-if-present); emitted D-Bus `PropertiesChanged` signals are collected in
an explicit output list.
-/

namespace PyStr

/-- Python `str.lower()` (kernel-reducible form over the character list). -/
def lower (s : String) : String := String.mk (s.data.map Char.toLower)

/-- Python `str.upper()` (kernel-reducible form over the character list). -/
def upper (s : String) : String := String.mk (s.data.map Char.toUpper)

/-- Python `s.startswith(p)` (kernel-reducible form over character lists). -/
def startsWith (s p : String) : Bool := p.data.isPrefixOf s.data

/-- Python `s.endswith(p)` (kernel-reducible form over character lists). -/
def endsWith (s p : String) : Bool := p.data.isSuffixOf s.data

end PyStr

namespace BlePeripheral

/-- A `PropertiesChanged` emission from `GattObject.update_property`
(ble_peripheral.py, lines 108-116).  The daemon only ever calls it with the
property name `Value` (with a byte array) or `Notifying` (with a boolean), so
the signal payload is modelled as this two-constructor type. -/
inductive Sig where
  | valueChanged (v : List Nat)
  | notifyingChanged (b : Bool)
  deriving DecidableEq, Repr

/-- Mutable state of an `HIDCharacteristic` (ble_peripheral.py, lines 215-224):
the stored `self.value` byte list and the `self.notifying` flag.  The
structural fields (uuid, flags, descriptors, paths) never change after
construction and are irrelevant to the claims, so they are omitted. -/
structure CharState where
  value : List Nat
  notifying : Bool
  deriving DecidableEq, Repr

/-- `[dbus.Byte(int(v) & 0xFF) for v in bytes]` — the byte-masking list
comprehension used by `WriteValue` and `update_value`. -/
def normBytes (l : List Nat) : List Nat := l.map (· % 256)

/-- `HIDCharacteristic.set_notifying` (ble_peripheral.py, lines 311-320):
update `self.notifying` and emit `PropertiesChanged('Notifying', …)` only when
the flag actually changes. -/
def set_notifying (c : CharState) (enabled : Bool) : CharState × List Sig :=
  if c.notifying ≠ enabled then
    ({ c with notifying := enabled }, [Sig.notifyingChanged enabled])
  else
    (c, [])

/-- `HIDCharacteristic.update_value` (ble_peripheral.py, lines 322-332):
mask the new bytes, return unchanged (`No change`) when they equal the stored
value, otherwise store them and emit `PropertiesChanged('Value', …)`. -/
def update_value (c : CharState) (new_value_bytes : List Nat) :
    CharState × List Sig :=
  let new_value := normBytes new_value_bytes
  if new_value = c.value then
    (c, [])
  else
    ({ c with value := new_value }, [Sig.valueChanged new_value])

/-- `HIDCharacteristic.ReadValue` (ble_peripheral.py, lines 270-274): returns
the stored value in every state. -/
def ReadValue (c : CharState) : List Nat := c.value

/-- `HIDCharacteristic.WriteValue` (ble_peripheral.py, lines 276-281): store
the masked bytes unconditionally and emit `PropertiesChanged('Value', …)`. -/
def WriteValue (c : CharState) (value : List Nat) : CharState × List Sig :=
  ({ c with value := normBytes value }, [Sig.valueChanged (normBytes value)])

/-- `HIDCharacteristic.StartNotify` (ble_peripheral.py, lines 283-286). -/
def StartNotify (c : CharState) : CharState × List Sig := set_notifying c true

/-- `HIDCharacteristic.StopNotify` (ble_peripheral.py, lines 288-291). -/
def StopNotify (c : CharState) : CharState × List Sig := set_notifying c false

/-- Mutable state of an `HIDDescriptor` together with its owning
characteristic (ble_peripheral.py, lines 127-137): `self.uuid`, `self.value`,
and the parent `self.char`. -/
structure DescState where
  uuid : String
  value : List Nat
  char : CharState
  deriving DecidableEq, Repr

/-- The CCCD UUID string compared against in `HIDDescriptor.WriteValue`
(ble_peripheral.py, line 179). -/
def cccdUUID : String := "00002902-0000-1000-8000-00805f9b34fb"

/-- `int(value[0]) & 0x01 != 0` guarded by `len(value) >= 1`
(ble_peripheral.py, line 182). -/
def cccdNotifyEnabled (value : List Nat) : Bool :=
  match value with
  | [] => false
  | b :: _ => b &&& 0x01 != 0

/-- `HIDDescriptor.WriteValue` (ble_peripheral.py, lines 170-199).  On the
CCCD (0x2902) it stores the masked bytes, derives the notify flag from bit 0
of byte 0, forwards it to `self.char.set_notifying`, and then reflects the new
descriptor value back with `PropertiesChanged('Value', …)`.  Any other
descriptor just stores the bytes and reflects them.  The whole body is wrapped
in `try/except`, so no exception escapes; the model is a total function. -/
def descWriteValue (d : DescState) (value : List Nat) : DescState × List Sig :=
  let new_val := normBytes value
  if PyStr.lower d.uuid = cccdUUID then
    let notify_enabled := cccdNotifyEnabled value
    let cs := set_notifying d.char notify_enabled
    ({ d with value := new_val, char := cs.1 },
      cs.2 ++ [Sig.valueChanged new_val])
  else
    ({ d with value := new_val }, [Sig.valueChanged new_val])

/-- Number of `Value` `PropertiesChanged` emissions in a signal list (the
"outward notify" count of the spec). -/
def countValueSigs (sigs : List Sig) : Nat :=
  (sigs.filter (fun s => match s with | Sig.valueChanged _ => true | _ => false)).length

end BlePeripheral

namespace HidReports

/-- `self.modifiers` — the fixed HID keyboard modifier bitmap dictionary
(hid_reports.py, lines 18-27), as `dict.get`: `none` for an absent key. -/
def modifiersGet (key : String) : Option Nat :=
  match key with
  | "KEY_LEFTCTRL" => some 0x01
  | "KEY_LEFTSHIFT" => some 0x02
  | "KEY_LEFTALT" => some 0x04
  | "KEY_LEFTMETA" => some 0x08
  | "KEY_RIGHTCTRL" => some 0x10
  | "KEY_RIGHTSHIFT" => some 0x20
  | "KEY_RIGHTALT" => some 0x40
  | "KEY_RIGHTMETA" => some 0x80
  | _ => none

/-- The modifier loop of `build_keyboard_report_bytes` (hid_reports.py, lines
53-57): `mod = self.modifiers.get(key); if mod: buf[0] |= mod` — the OR is
skipped when `get` returns `None` (or a falsy 0). -/
def modifierByte (pressed : List String) : Nat :=
  pressed.foldl
    (fun b key =>
      match modifiersGet key with
      | some m => if m ≠ 0 then b ||| m else b
      | none => b)
    0

/-- The key-slot loop of `build_keyboard_report_bytes` (hid_reports.py, lines
59-68).  `idx` is the buffer index (starting at 2); the loop body breaks when
`idx >= 8`, looks the key up in the keyboard map, and on a truthy usage writes
`usage & 0xFF` at `idx` and advances.  The written slots are returned in
order. -/
def fillSlots (keyboardMap : String → Option Nat) :
    List String → Nat → List Nat
  | [], _ => []
  | key :: rest, idx =>
    if idx ≥ 8 then []
    else
      match keyboardMap key with
      | some usage =>
        if usage ≠ 0 then (usage % 256) :: fillSlots keyboardMap rest (idx + 1)
        else fillSlots keyboardMap rest idx
      | none => fillSlots keyboardMap rest idx

/-- `HIDReportBuilder.build_keyboard_report_bytes` (hid_reports.py, lines
43-70).  The 8-byte zeroed buffer gets the modifier bitmap at index 0, key
usages from index 2 on, and stays zero elsewhere.  `keyboardMap` stands for
`self.maps.get('keyboard', {}).get` (loaded from the report-map YAML, which is
configuration outside the repository); `pressed` is the iteration order of the
`pressed_keys` argument. -/
def build_keyboard_report_bytes (keyboardMap : String → Option Nat)
    (pressed : List String) : List Nat :=
  let slots := fillSlots keyboardMap pressed 2
  modifierByte pressed % 256 :: 0 :: (slots ++ List.replicate (6 - slots.length) 0)

/-- The usages that the slot loop can ever emit, in iteration order: keys whose
map lookup is a truthy (non-`None`, non-zero) usage, masked to a byte. -/
def mappedUsages (keyboardMap : String → Option Nat)
    (pressed : List String) : List Nat :=
  pressed.filterMap
    (fun key =>
      match keyboardMap key with
      | some usage => if usage ≠ 0 then some (usage % 256) else none
      | none => none)

/-- `clamp8` inside `build_mouse_report_bytes` (hid_reports.py, lines
117-122): clamp to `[-127, 127]`, then `v & 0xFF` (two's complement byte). -/
def clamp8 (v : Int) : Nat :=
  let w : Int := if v > 127 then 127 else if v < -127 then -127 else v
  (w % 256).toNat

/-- The button loop of `build_mouse_report_bytes` (hid_reports.py, lines
96-114): OR the configured mask for each recognised button name. -/
def buttonByte (mouseMap : String → Nat) (buttons : List String) : Nat :=
  buttons.foldl
    (fun b btn =>
      if btn = "BTN_LEFT" ∨ PyStr.endsWith (PyStr.upper btn) "BTN_LEFT" then
        b ||| mouseMap "BTN_LEFT"
      else if btn = "BTN_RIGHT" ∨ PyStr.endsWith (PyStr.upper btn) "BTN_RIGHT" then
        b ||| mouseMap "BTN_RIGHT"
      else if btn = "BTN_MIDDLE" ∨ PyStr.endsWith (PyStr.upper btn) "BTN_MIDDLE" then
        b ||| mouseMap "BTN_MIDDLE"
      else b)
    0

/-- `HIDReportBuilder.build_mouse_report_bytes` (hid_reports.py, lines
85-128): `[buttons, clamp8(dx), clamp8(dy), 0x00]`.  `mouseMap` stands for
`self.maps.get('mouse', {}).get(name, 0)` from the report-map YAML. -/
def build_mouse_report_bytes (mouseMap : String → Nat) (buttons : List String)
    (rel_x rel_y : Int) : List Nat :=
  [buttonByte mouseMap buttons % 256, clamp8 rel_x, clamp8 rel_y, 0x00]

end HidReports

namespace Evdev

/-- `EV_KEY` (evdev_tracker.py, line 22). -/
def EV_KEY : Nat := 0x01
/-- `EV_REL` (evdev_tracker.py, line 23). -/
def EV_REL : Nat := 0x02
/-- `REL_X` (evdev_tracker.py, line 25). -/
def REL_X : Nat := 0x00
/-- `REL_Y` (evdev_tracker.py, line 26). -/
def REL_Y : Nat := 0x01

/-- `KEYCODE_TO_HID` (evdev_tracker.py, lines 35-47): the minimal evdev key
name → HID usage mapping, as `dict.get`. -/
def KEYCODE_TO_HID (key : String) : Option Nat :=
  match key with
  | "KEY_A" => some 0x04 | "KEY_B" => some 0x05 | "KEY_C" => some 0x06
  | "KEY_D" => some 0x07 | "KEY_E" => some 0x08 | "KEY_F" => some 0x09
  | "KEY_G" => some 0x0A | "KEY_H" => some 0x0B | "KEY_I" => some 0x0C
  | "KEY_J" => some 0x0D | "KEY_K" => some 0x0E | "KEY_L" => some 0x0F
  | "KEY_M" => some 0x10 | "KEY_N" => some 0x11 | "KEY_O" => some 0x12
  | "KEY_P" => some 0x13 | "KEY_Q" => some 0x14 | "KEY_R" => some 0x15
  | "KEY_S" => some 0x16 | "KEY_T" => some 0x17 | "KEY_U" => some 0x18
  | "KEY_V" => some 0x19 | "KEY_W" => some 0x1A | "KEY_X" => some 0x1B
  | "KEY_Y" => some 0x1C | "KEY_Z" => some 0x1D
  | "KEY_1" => some 0x1E | "KEY_2" => some 0x1F | "KEY_3" => some 0x20
  | "KEY_4" => some 0x21 | "KEY_5" => some 0x22 | "KEY_6" => some 0x23
  | "KEY_7" => some 0x24 | "KEY_8" => some 0x25 | "KEY_9" => some 0x26
  | "KEY_0" => some 0x27
  | "KEY_ENTER" => some 0x28 | "KEY_ESC" => some 0x29
  | "KEY_BACKSPACE" => some 0x2A | "KEY_TAB" => some 0x2B
  | "KEY_SPACE" => some 0x2C
  | "KEY_LEFTCTRL" => some 0xE0 | "KEY_LEFTSHIFT" => some 0xE1
  | "KEY_LEFTALT" => some 0xE2 | "KEY_LEFTMETA" => some 0xE3
  | "KEY_RIGHTCTRL" => some 0xE4 | "KEY_RIGHTSHIFT" => some 0xE5
  | "KEY_RIGHTALT" => some 0xE6 | "KEY_RIGHTMETA" => some 0xE7
  | _ => none

/-- `_code_to_name`'s `CODE_TO_NAME` dictionary (evdev_tracker.py, lines
295-314): numeric evdev code → symbolic name. -/
def codeToName (code : Nat) : Option String :=
  match code with
  | 272 => some "BTN_LEFT" | 273 => some "BTN_RIGHT" | 274 => some "BTN_MIDDLE"
  | 30 => some "KEY_A" | 48 => some "KEY_B" | 46 => some "KEY_C"
  | 32 => some "KEY_D" | 18 => some "KEY_E" | 33 => some "KEY_F"
  | 34 => some "KEY_G" | 35 => some "KEY_H" | 23 => some "KEY_I"
  | 36 => some "KEY_J" | 37 => some "KEY_K" | 38 => some "KEY_L"
  | 50 => some "KEY_M" | 49 => some "KEY_N" | 24 => some "KEY_O"
  | 25 => some "KEY_P" | 16 => some "KEY_Q" | 19 => some "KEY_R"
  | 31 => some "KEY_S" | 20 => some "KEY_T" | 22 => some "KEY_U"
  | 47 => some "KEY_V" | 17 => some "KEY_W" | 45 => some "KEY_X"
  | 21 => some "KEY_Y" | 44 => some "KEY_Z"
  | 2 => some "KEY_1" | 3 => some "KEY_2" | 4 => some "KEY_3"
  | 5 => some "KEY_4" | 6 => some "KEY_5" | 7 => some "KEY_6"
  | 8 => some "KEY_7" | 9 => some "KEY_8" | 10 => some "KEY_9"
  | 11 => some "KEY_0"
  | 28 => some "KEY_ENTER" | 1 => some "KEY_ESC" | 14 => some "KEY_BACKSPACE"
  | 15 => some "KEY_TAB" | 57 => some "KEY_SPACE"
  | 29 => some "KEY_LEFTCTRL" | 42 => some "KEY_LEFTSHIFT"
  | 56 => some "KEY_LEFTALT" | 125 => some "KEY_LEFTMETA"
  | 97 => some "KEY_RIGHTCTRL" | 54 => some "KEY_RIGHTSHIFT"
  | 100 => some "KEY_RIGHTALT" | 126 => some "KEY_RIGHTMETA"
  | _ => none

/-- A parsed `(ev_type, code, value)` tuple yielded by `_read_events`
(evdev_tracker.py, line 173). -/
structure Event where
  evType : Nat
  code : Nat
  value : Int
  deriving DecidableEq, Repr

/-- Mutable state of an `EvdevTracker` (evdev_tracker.py, lines 81-90):
`self.fd` (modelled by whether a descriptor is open), `self._connected`,
`self.buttons`, `self.key_state` (Python sets, modelled as duplicate-free
lists via membership-checked insert/erase), and `self.rel_x`/`self.rel_y`. -/
structure TrackerState where
  hasFd : Bool
  connected : Bool
  buttons : List String
  key_state : List String
  rel_x : Int
  rel_y : Int
  deriving DecidableEq, Repr

/-- Outcome of the single `os.read(self.fd, 4096)` in `_read_events`
(evdev_tracker.py, lines 147-165): a successful read parsed into events, a
`BlockingIOError`, an `OSError` (device removed / IO error), or a zero-byte
read (EOF). -/
inductive ReadResult where
  | events (evs : List Event)
  | wouldBlock
  | ioError
  | eof
  deriving DecidableEq, Repr

/-- The non-deterministic environment one `poll()` call observes: whether the
device path exists and `os.open` succeeds (evdev_tracker.py, lines 101-121),
whether `select.select` reports the fd readable (line 205), and what the read
returns. -/
structure Env where
  pathExists : Bool
  openSucceeds : Bool
  dataReady : Bool
  readResult : ReadResult
  deriving DecidableEq, Repr

/-- `EvdevTracker.close` (evdev_tracker.py, lines 123-132): drop the fd and
mark disconnected; key/button/motion state is left untouched. -/
def closeDev (s : TrackerState) : TrackerState :=
  { s with hasFd := false, connected := false }

/-- `EvdevTracker.open` (evdev_tracker.py, lines 97-121): no-op when an fd is
already held; otherwise mark disconnected when the path is absent, and on an
`os.open` attempt either hold the fd and mark connected or (on any exception)
clear the fd and mark disconnected. -/
def openDev (s : TrackerState) (env : Env) : TrackerState :=
  if s.hasFd then s
  else if ¬env.pathExists then { s with connected := false }
  else if env.openSucceeds then { s with hasFd := true, connected := true }
  else { s with hasFd := false, connected := false }

/-- `EvdevTracker._read_events` (evdev_tracker.py, lines 138-173): yields
nothing without an fd; on `BlockingIOError` yields nothing; on `OSError` (or
any other read exception) and on a zero-byte read closes the device and yields
nothing; otherwise yields the parsed events. -/
def readEvents (s : TrackerState) (r : ReadResult) :
    TrackerState × List Event :=
  if ¬s.hasFd then (s, [])
  else
    match r with
    | ReadResult.wouldBlock => (s, [])
    | ReadResult.ioError => (closeDev s, [])
    | ReadResult.eof => (closeDev s, [])
    | ReadResult.events evs => (s, evs)

/-- The event-classification body of the `for ev in self._read_events()` loop
in `poll` (evdev_tracker.py, lines 214-287), folded over
`(state, changed, events_seen)`. -/
def processEvent (acc : TrackerState × Bool × Bool) (ev : Event) :
    TrackerState × Bool × Bool :=
  let (s, changed, events_seen) := acc
  if ev.evType = EV_REL then
    if ev.code = REL_X then
      if ev.value ≠ 0 then
        ({ s with rel_x := s.rel_x + ev.value }, true, true)
      else (s, changed, events_seen)
    else if ev.code = REL_Y then
      if ev.value ≠ 0 then
        ({ s with rel_y := s.rel_y + ev.value }, true, true)
      else (s, changed, events_seen)
    else (s, changed, events_seen)
  else if ev.evType = EV_KEY then
    match codeToName ev.code with
    | none => (s, changed, events_seen)
    | some name =>
      if ev.value ≠ 0 then
        -- press or autorepeat: events_seen is set unconditionally
        if PyStr.startsWith name "BTN_" then
          if name ∉ s.buttons then
            ({ s with buttons := name :: s.buttons }, true, true)
          else (s, changed, true)
        else
          if name ∉ s.key_state then
            ({ s with key_state := name :: s.key_state }, true, true)
          else (s, changed, true)
      else
        -- release
        if PyStr.startsWith name "BTN_" then
          if name ∈ s.buttons then
            ({ s with buttons := s.buttons.erase name }, true, true)
          else (s, changed, events_seen)
        else
          if name ∈ s.key_state then
            ({ s with key_state := s.key_state.erase name }, true, true)
          else (s, changed, events_seen)
  else (s, changed, events_seen)

/-- `poll` (evdev_tracker.py, lines 175-294).  If disconnected it first tries
`open()` and returns `False` when still disconnected; with no valid fd or no
readable data it returns `False`; otherwise it drains `_read_events()` and
folds every event through the classification loop, finally returning
`changed or events_seen`. -/
def poll (s : TrackerState) (env : Env) : TrackerState × Bool :=
  let s1 := if ¬s.connected then openDev s env else s
  if ¬s1.connected then (s1, false)
  else if ¬s1.hasFd then (s1, false)
  else if ¬env.dataReady then (s1, false)
  else
    let re := readEvents s1 env.readResult
    let folded := re.2.foldl processEvent (re.1, false, false)
    (folded.1, folded.2.1 || folded.2.2)

end Evdev

namespace HidDaemon

/-- What can go wrong (or apply) during one `update_reports` tick
(hid_daemon.py, lines 219-234): whether `self.keyboard_dev.poll()` raises,
whether `self.mouse_svc` exists and whether its `poll()` raises, whether
`self.keyboard_char` exists, whether the report-build/update block raises, and
whether the freshly built keyboard report differs from `self.last_kb_report`. -/
structure TickEnv where
  kbPollRaises : Bool
  mouseSvcPresent : Bool
  mousePollRaises : Bool
  kbCharPresent : Bool
  buildRaises : Bool
  reportChanged : Bool
  deriving DecidableEq, Repr

/-- Observable outcome of one `update_reports` tick: which calls were actually
made and whether the GLib timeout callback returned `True` (so the periodic
loop continues). -/
structure TickResult where
  kbPolled : Bool
  mousePolled : Bool
  kbPushed : Bool
  loopContinues : Bool
  deriving DecidableEq, Repr

/-- `update_reports`, the closure scheduled by
`HIDDaemon._schedule_report_updates` (hid_daemon.py, lines 217-236).  The body
runs sequentially under a single `try`: keyboard poll, then mouse-service poll
(if present), then keyboard report build and conditional `update_value` push
(if the keyboard characteristic is present).  The first raising step jumps to
the tick-level `except`, skipping every later step; the callback returns
`True` on every path. -/
def update_reports (env : TickEnv) : TickResult :=
  if env.kbPollRaises then
    { kbPolled := true, mousePolled := false, kbPushed := false,
      loopContinues := true }
  else if env.mouseSvcPresent && env.mousePollRaises then
    { kbPolled := true, mousePolled := true, kbPushed := false,
      loopContinues := true }
  else if env.kbCharPresent then
    if env.buildRaises then
      { kbPolled := true, mousePolled := env.mouseSvcPresent,
        kbPushed := false, loopContinues := true }
    else
      { kbPolled := true, mousePolled := env.mouseSvcPresent,
        kbPushed := env.reportChanged, loopContinues := true }
  else
    { kbPolled := true, mousePolled := env.mouseSvcPresent,
      kbPushed := false, loopContinues := true }

end HidDaemon

/-! ## Helper lemmas shared by several claim theorems -/

/-- `set_notifying` always leaves the flag equal to its argument. -/
theorem set_notifying_fst_notifying (c : BlePeripheral.CharState) (e : Bool) :
    (BlePeripheral.set_notifying c e).1.notifying = e := by
  unfold BlePeripheral.set_notifying
  by_cases h : c.notifying = e <;> simp [h]

/-- `set_notifying` never touches the stored value. -/
theorem set_notifying_fst_value (c : BlePeripheral.CharState) (e : Bool) :
    (BlePeripheral.set_notifying c e).1.value = c.value := by
  unfold BlePeripheral.set_notifying
  by_cases h : c.notifying = e <;> simp [h]

/-- The clamped integer written by `clamp8` is `max (-127) (min 127 v)`,
reduced mod 256. -/
theorem clamp8_eq (v : Int) :
    HidReports.clamp8 v = ((max (-127) (min 127 v)) % 256).toNat := by
  unfold HidReports.clamp8
  have h : (if v > 127 then (127 : Int) else if v < -127 then -127 else v) =
      max (-127) (min 127 v) := by
    split_ifs <;> omega
  rw [h]

/-! ## Claim theorems -/

/-- C1 counterexample: with Notifying false and new bytes differing from the
stored value, `update_value` still emits a `PropertiesChanged` carrying
`Value` — refuting "emits an outward notify only if the Notifying flag is
true". -/
theorem C1_counterexample :
    BlePeripheral.countValueSigs
      (BlePeripheral.update_value ⟨[0x00], false⟩ [0x01]).2 = 1 ∧
    (⟨[0x00], false⟩ : BlePeripheral.CharState).notifying = false := by
  decide

/-- C1 (amended): `update_value(newBytes)` emits exactly one outward
`PropertiesChanged` carrying `Value` when the byte-masked `newBytes` differ
from the stored value and none when they are equal; the Notifying flag is not
consulted and is left unchanged. -/
theorem C1_update_value_notify_on_change (c : BlePeripheral.CharState)
    (new : List Nat) :
    BlePeripheral.countValueSigs (BlePeripheral.update_value c new).2 =
      (if BlePeripheral.normBytes new = c.value then 0 else 1) ∧
    (BlePeripheral.update_value c new).1.notifying = c.notifying ∧
    (BlePeripheral.update_value c new).1.value =
      (if BlePeripheral.normBytes new = c.value then c.value
       else BlePeripheral.normBytes new) := by
  unfold BlePeripheral.update_value
  by_cases h : BlePeripheral.normBytes new = c.value <;>
    simp [h, BlePeripheral.countValueSigs]

/-- C4: `update_value` is idempotent for notification — after
`update_value(b)`, a second `update_value(b)` is a no-op (same state, no
signal), and the two calls together emit at most one outward `Value`
notify. -/
theorem C4_update_value_idempotent (c : BlePeripheral.CharState)
    (b : List Nat) :
    (BlePeripheral.update_value (BlePeripheral.update_value c b).1 b).1 =
      (BlePeripheral.update_value c b).1 ∧
    (BlePeripheral.update_value (BlePeripheral.update_value c b).1 b).2 = [] ∧
    (BlePeripheral.update_value c b).1.value = BlePeripheral.normBytes b ∧
    BlePeripheral.countValueSigs
      ((BlePeripheral.update_value c b).2 ++
        (BlePeripheral.update_value (BlePeripheral.update_value c b).1 b).2)
      ≤ 1 := by
  unfold BlePeripheral.update_value
  by_cases h : BlePeripheral.normBytes b = c.value <;>
    simp [h, BlePeripheral.countValueSigs]

/-- C9: `StartNotify()` then `StopNotify()` leaves the stored value untouched,
and `ReadValue()` returns the stored value in every state (both Idle and
Active are covered by the universally quantified `c`). -/
theorem C9_read_value_frame (c : BlePeripheral.CharState) :
    BlePeripheral.ReadValue
      ((BlePeripheral.StopNotify (BlePeripheral.StartNotify c).1).1) =
        c.value ∧
    ((BlePeripheral.StopNotify (BlePeripheral.StartNotify c).1).1).value =
      c.value ∧
    BlePeripheral.ReadValue c = c.value := by
  unfold BlePeripheral.ReadValue BlePeripheral.StartNotify
    BlePeripheral.StopNotify BlePeripheral.set_notifying
  by_cases h : c.notifying <;> simp [h]

/-- C10: `set_notifying` is change-detecting — the flag always ends up equal
to the argument, the stored value is untouched, exactly one Notifying
`PropertiesChanged` is emitted when the flag flips and none otherwise, and a
call with the already-current flag leaves the state object unchanged. -/
theorem C10_set_notifying_change_detecting (c : BlePeripheral.CharState)
    (b : Bool) :
    (BlePeripheral.set_notifying c b).1.notifying = b ∧
    (BlePeripheral.set_notifying c b).1.value = c.value ∧
    (BlePeripheral.set_notifying c b).2.length =
      (if c.notifying = b then 0 else 1) ∧
    (c.notifying = b → BlePeripheral.set_notifying c b = (c, [])) := by
  unfold BlePeripheral.set_notifying
  by_cases h : c.notifying = b <;> simp [h]

/-- C10 witness: a repeated `StartNotify` on an already-notifying
characteristic leaves the state unchanged and emits nothing. -/
theorem C10_witness :
    (BlePeripheral.set_notifying ⟨[0x03], true⟩ true).1.notifying = true ∧
    BlePeripheral.set_notifying ⟨[0x03], true⟩ true = (⟨[0x03], true⟩, []) :=
  ⟨(C10_set_notifying_change_detecting ⟨[0x03], true⟩ true).1,
   (C10_set_notifying_change_detecting ⟨[0x03], true⟩ true).2.2.2 rfl⟩

/-- C5: a CCCD write drives the owning characteristic's Notifying flag from
bit 0 of byte 0 alone — `[0x01,0x00]` enables, `[0x00,0x00]` disables, and for
every 2-byte value the resulting flag is `b0 & 1 ≠ 0` (so the Indicate bit 1
has no effect on Notifying). -/
theorem C5_cccd_bit0_controls_notifying (d : BlePeripheral.DescState)
    (h : PyStr.lower d.uuid = BlePeripheral.cccdUUID) (b0 b1 : Nat) :
    (BlePeripheral.descWriteValue d [0x01, 0x00]).1.char.notifying = true ∧
    (BlePeripheral.descWriteValue d [0x00, 0x00]).1.char.notifying = false ∧
    (BlePeripheral.descWriteValue d [b0, b1]).1.char.notifying =
      (b0 &&& 0x01 != 0) := by
  refine ⟨?_, ?_, ?_⟩ <;>
    simp [BlePeripheral.descWriteValue, h, BlePeripheral.cccdNotifyEnabled,
      set_notifying_fst_notifying]

/-- C5 witness: on a concrete CCCD descriptor, writing `[0x01,0x00]` enables
Notifying and writing `[0x03,0x00]` (Notify and Indicate bits) also enables
it, which pins the behavior to bit 0. -/
theorem C5_witness :
    (BlePeripheral.descWriteValue
      ⟨BlePeripheral.cccdUUID, [], ⟨[], false⟩⟩ [0x01, 0x00]).1.char.notifying
      = true ∧
    (BlePeripheral.descWriteValue
      ⟨BlePeripheral.cccdUUID, [], ⟨[], false⟩⟩ [0x03, 0x00]).1.char.notifying
      = true :=
  ⟨(C5_cccd_bit0_controls_notifying ⟨BlePeripheral.cccdUUID, [], ⟨[], false⟩⟩
      (by decide) 1 0).1,
   by
    rw [(C5_cccd_bit0_controls_notifying
      ⟨BlePeripheral.cccdUUID, [], ⟨[], false⟩⟩ (by decide) 3 0).2.2]
    rfl⟩

/-- The slot loop writes exactly the first `8 - idx` mapped usages, in
iteration order. -/
theorem fillSlots_eq_take (km : String → Option Nat) (l : List String) :
    ∀ idx : Nat, idx ≤ 8 →
      HidReports.fillSlots km l idx = (HidReports.mappedUsages km l).take (8 - idx) := by
  induction l with
  | nil => intro idx _; simp [HidReports.fillSlots, HidReports.mappedUsages]
  | cons key rest ih =>
    intro idx hle
    by_cases h8 : idx ≥ 8
    · have h : idx = 8 := le_antisymm hle h8
      subst h
      simp [HidReports.fillSlots]
    · push_neg at h8
      unfold HidReports.fillSlots
      rw [if_neg (by omega)]
      cases hk : km key with
      | none =>
        rw [ih idx hle]
        simp [HidReports.mappedUsages, hk]
      | some u =>
        by_cases hu : u = 0
        · subst hu
          rw [ih idx hle]
          simp [HidReports.mappedUsages, hk]
        · have h1 := ih (idx + 1) (by omega)
          have hone : 8 - idx = (8 - (idx + 1)) + 1 := by omega
          simp [HidReports.mappedUsages, hk, hu, h1, hone,
            List.take_succ_cons]

/-- C2 counterexample: the byte builder emits key slots in the iteration order
of its argument, not in sorted order — iterating the set `{KEY_A, KEY_B}` as
`[KEY_B, KEY_A]` yields slots `[0x05, 0x04]`, while the sorted-order usages of
that set are `[0x04, 0x05]`. -/
theorem C2_counterexample :
    HidReports.build_keyboard_report_bytes Evdev.KEYCODE_TO_HID
        ["KEY_B", "KEY_A"] = [0, 0, 0x05, 0x04, 0, 0, 0, 0] ∧
    ((HidReports.build_keyboard_report_bytes Evdev.KEYCODE_TO_HID
        ["KEY_B", "KEY_A"]).drop 2).filter (fun x => x != 0) = [0x05, 0x04] ∧
    HidReports.mappedUsages Evdev.KEYCODE_TO_HID ["KEY_A", "KEY_B"] =
      [0x04, 0x05] ∧
    ([0x05, 0x04] : List Nat) ≠ [0x04, 0x05] := by decide

/-- C2 (amended): `build_keyboard_report_bytes` returns exactly 8 bytes with
byte 1 equal to 0 and byte 0 the modifier bitmap; bytes 2..7 hold the usage
codes of the mapped pressed keys in the order the input iterates — the first
six of them when more than six are mapped — with the unused slots
zero-filled.  (Sorted-order decoding holds only when the caller iterates the
set in sorted order, as `KeyboardDevice._build_report` does.) -/
theorem C2_keyboard_report_layout (km : String → Option Nat)
    (pressed : List String) :
    (HidReports.build_keyboard_report_bytes km pressed).length = 8 ∧
    (HidReports.build_keyboard_report_bytes km pressed).get? 1 = some 0 ∧
    (HidReports.build_keyboard_report_bytes km pressed).get? 0 =
      some (HidReports.modifierByte pressed % 256) ∧
    (HidReports.build_keyboard_report_bytes km pressed).drop 2 =
      (HidReports.mappedUsages km pressed).take 6 ++
        List.replicate
          (6 - ((HidReports.mappedUsages km pressed).take 6).length) 0 := by
  unfold HidReports.build_keyboard_report_bytes
  rw [fillSlots_eq_take km pressed 2 (by omega)]
  have hlen : ((HidReports.mappedUsages km pressed).take (8 - 2)).length ≤ 6 :=
    List.length_take_le 6 (HidReports.mappedUsages km pressed)
  refine ⟨?_, by simp, by simp, by simp⟩
  simp only [List.length_cons, List.length_append, List.length_replicate]
  omega

/-- C3: `build_mouse_report_bytes` clamps each delta to `[-127, 127]` before
two's-complement byte encoding: the dx byte is always
`(max (-127) (min 127 dx)) mod 256`, so `dx = 200` encodes as `0x7F`,
`dx = -200` as `0x81`, and `dx = 0` as `0x00` (and likewise for dy). -/
theorem C3_mouse_delta_clamping (mouseMap : String → Nat)
    (buttons : List String) (dx dy : Int) :
    (HidReports.build_mouse_report_bytes mouseMap buttons dx dy).get? 1 =
      some (((max (-127) (min 127 dx)) % 256).toNat) ∧
    (HidReports.build_mouse_report_bytes mouseMap buttons dx dy).get? 2 =
      some (((max (-127) (min 127 dy)) % 256).toNat) ∧
    (HidReports.build_mouse_report_bytes mouseMap buttons dx dy).length = 4 ∧
    (HidReports.build_mouse_report_bytes mouseMap buttons 200 dy).get? 1 =
      some 0x7F ∧
    (HidReports.build_mouse_report_bytes mouseMap buttons (-200) dy).get? 1 =
      some 0x81 ∧
    (HidReports.build_mouse_report_bytes mouseMap buttons 0 dy).get? 1 =
      some 0x00 := by
  refine ⟨?_, ?_, ?_, ?_, ?_, ?_⟩ <;>
    simp [HidReports.build_mouse_report_bytes, clamp8_eq]

/-- C6: (a) a read error (`OSError`) during event reading closes the
descriptor, marks the tracker disconnected, keeps all key/button/motion state,
and makes `poll` report no change; (b) the same for a zero-length read (EOF);
(c) once the device path is available again, a later `poll` reopens the device
and reports no change; (d) polling the reopened device then processes events
normally (a fresh key press is recorded and reported as a change).  No case
can raise: the model is a total function, mirroring the `try/except` blocks in
`_read_events` and `open`. -/
theorem C6_read_error_recovery :
    (∀ s : Evdev.TrackerState, s.connected = true → s.hasFd = true →
      ∀ pe os : Bool,
        Evdev.poll s ⟨pe, os, true, Evdev.ReadResult.ioError⟩ =
          ({ s with hasFd := false, connected := false }, false)) ∧
    (∀ s : Evdev.TrackerState, s.connected = true → s.hasFd = true →
      ∀ pe os : Bool,
        Evdev.poll s ⟨pe, os, true, Evdev.ReadResult.eof⟩ =
          ({ s with hasFd := false, connected := false }, false)) ∧
    (∀ s : Evdev.TrackerState, s.connected = false → s.hasFd = false →
      ∀ rr : Evdev.ReadResult,
        Evdev.poll s ⟨true, true, false, rr⟩ =
          ({ s with hasFd := true, connected := true }, false)) ∧
    (∀ s : Evdev.TrackerState, s.connected = false → s.hasFd = false →
      "KEY_A" ∉ s.key_state →
      Evdev.poll s
          ⟨true, true, true, Evdev.ReadResult.events [⟨Evdev.EV_KEY, 30, 1⟩]⟩ =
        ({ s with
            hasFd := true
            connected := true
            key_state := "KEY_A" :: s.key_state }, true)) := by
  have hname : Evdev.codeToName 30 = some "KEY_A" := rfl
  have hbtn : PyStr.startsWith "KEY_A" "BTN_" = false := rfl
  refine ⟨?_, ?_, ?_, ?_⟩
  · intro s h1 h2 pe os
    simp [Evdev.poll, Evdev.readEvents, Evdev.closeDev, h1, h2]
  · intro s h1 h2 pe os
    simp [Evdev.poll, Evdev.readEvents, Evdev.closeDev, h1, h2]
  · intro s h1 h2 rr
    simp [Evdev.poll, Evdev.openDev, h1, h2]
  · intro s h1 h2 h3
    simp [Evdev.poll, Evdev.openDev, Evdev.readEvents, Evdev.processEvent,
      Evdev.EV_KEY, Evdev.EV_REL, hname, hbtn, h1, h2, h3]

/-- C6 witness: the read-error case at a concrete connected tracker with
pending state, and the reconnect-and-resume case at a concrete disconnected
tracker. -/
theorem C6_witness :
    Evdev.poll ⟨true, true, [], ["KEY_A"], 5, 0⟩
        ⟨true, true, true, Evdev.ReadResult.ioError⟩ =
      (⟨false, false, [], ["KEY_A"], 5, 0⟩, false) ∧
    Evdev.poll ⟨false, false, [], [], 0, 0⟩
        ⟨true, true, true, Evdev.ReadResult.events [⟨Evdev.EV_KEY, 30, 1⟩]⟩ =
      (⟨true, true, [], ["KEY_A"], 0, 0⟩, true) :=
  ⟨C6_read_error_recovery.1 ⟨true, true, [], ["KEY_A"], 5, 0⟩ rfl rfl true true,
   C6_read_error_recovery.2.2.2 ⟨false, false, [], [], 0, 0⟩ rfl rfl
     (by decide)⟩

/-- C7: evaluating `poll` at the failing input — a connected tracker with
`KEY_A` already pressed receiving a single autorepeat event
`(EV_KEY, 30, value 2)` — returns `true` although the tracker state is
returned completely unchanged.  The docstring of `poll` ("True if relevant
internal state changed … False otherwise") and the claim require `false`
here; the code returns `changed or events_seen` and `events_seen` is set by
the autorepeat. -/
theorem C7_autorepeat_failing_input :
    Evdev.poll ⟨true, true, [], ["KEY_A"], 0, 0⟩
        ⟨true, true, true, Evdev.ReadResult.events [⟨Evdev.EV_KEY, 30, 2⟩]⟩ =
      (⟨true, true, [], ["KEY_A"], 0, 0⟩, true) := by decide

/-- C8 counterexample: in a tick where the keyboard poll raises while a mouse
service is present, the mouse is not polled and nothing is pushed that tick —
refuting "an exception in one device does not prevent the other devices from
being polled in that same tick". -/
theorem C8_counterexample :
    (HidDaemon.update_reports
      ⟨true, true, false, true, false, true⟩).mousePolled = false ∧
    (HidDaemon.update_reports
      ⟨true, true, false, true, false, true⟩).kbPushed = false ∧
    (HidDaemon.update_reports
      ⟨true, true, false, true, false, true⟩).loopContinues = true := by
  decide

/-- C8 (amended): every exception in the tick body is caught by the tick-level
handler, so the callback always returns `True` and the periodic loop
continues, and the keyboard poll is always attempted first; but the tick body
is sequential under a single `try`, so the mouse service is polled exactly
when the keyboard poll did not raise, and the keyboard report is pushed
exactly when no earlier step raised, the characteristic exists, the build
succeeded, and the report differs from the last one. -/
theorem C8_tick_fault_containment (env : HidDaemon.TickEnv) :
    (HidDaemon.update_reports env).loopContinues = true ∧
    (HidDaemon.update_reports env).kbPolled = true ∧
    (HidDaemon.update_reports env).mousePolled =
      (!env.kbPollRaises && env.mouseSvcPresent) ∧
    (HidDaemon.update_reports env).kbPushed =
      (!env.kbPollRaises && !(env.mouseSvcPresent && env.mousePollRaises) &&
        env.kbCharPresent && !env.buildRaises && env.reportChanged) := by
  rcases env with ⟨a, b, c, d, e, f⟩
  cases a <;> cases b <;> cases c <;> cases d <;> cases e <;> cases f <;>
    decide
